import Mathlib

/-!
Shallow embedding of the counter-service Flask application,
src/counter_service/app.py, for checking its specification.

The backing store (Redis) is modelled as an optional string stored under the
single key "counter" together with a reachability flag.  The Store Client
handle is modelled by a Bool: `true` means the client object exists,
`false` is the Python `redis_client is None` state that the startup
except-branch of `create_app` leaves behind when the initial
`redis_client.ping()` fails.  Each request handler returns the HTTP
response, the post-request store state and the list of store operations the
handler performed, so that frame properties and the
no-store-call-when-unavailable properties are statable.
-/

namespace CounterService

/-- ASCII decimal digit test used by both integer parsers below. -/
def isDigitCh (c : Char) : Bool :=
  '0' ≤ c && c ≤ '9'

/-- Whitespace characters stripped by the Python `int(str)` conversion. -/
def isPyWs (c : Char) : Bool :=
  c = ' ' || c = '\t' || c = '\n' || c = '\r' || c = '\x0b' || c = '\x0c'

/-- Strip leading and trailing whitespace, as `int(str)` does. -/
def pyStrip (cs : List Char) : List Char :=
  ((cs.dropWhile isPyWs).reverse.dropWhile isPyWs).reverse

/-- Continuation of a Python integer digit run: digits, with a single
underscore allowed between two digits. -/
def digitsRest : List Char → Bool
  | [] => true
  | '_' :: rest =>
    match rest with
    | c :: rest2 => isDigitCh c && digitsRest rest2
    | [] => false
  | c :: rest => isDigitCh c && digitsRest rest

/-- A Python integer digit part: at least one digit, underscores only
between digits. -/
def digitpartOk : List Char → Bool
  | [] => false
  | c :: rest => isDigitCh c && digitsRest rest

/-- Numeric value of a list of decimal digit characters. -/
def natOfDigits (cs : List Char) : Nat :=
  cs.foldl (fun a c => a * 10 + (c.toNat - 48)) 0

/-- Model of the Python builtin `int(value)` conversion applied to a string
(as in `count = int(value)` in `get_counter`): optional surrounding
whitespace, an optional sign, then a digit run with optional underscore
grouping.  Returns `none` when Python would raise ValueError.  (Non-ASCII
digit support is elided.) -/
def pyIntParse (s : String) : Option Int :=
  let core : List Char → Option Nat := fun l =>
    if digitpartOk l then some (natOfDigits (l.filter (fun c => c ≠ '_'))) else none
  match pyStrip s.toList with
  | '+' :: rest => (core rest).map (fun n => (n : Int))
  | '-' :: rest => (core rest).map (fun n => -(n : Int))
  | cs => (core cs).map (fun n => (n : Int))

/-- Largest signed 64-bit integer; Redis counters live in this range. -/
def int64Max : Int := 9223372036854775807

/-- Smallest signed 64-bit integer. -/
def int64Min : Int := -9223372036854775808

/-- Model of the strict string-to-integer conversion the Redis INCR command
applies to the stored value (redis string2ll): "0" alone, or an optional
minus sign followed by a digit run without a leading zero, fitting in a
signed 64-bit integer. -/
def redisParseInt (s : String) : Option Int :=
  match s.toList with
  | ['0'] => some 0
  | '-' :: c :: rest =>
    if ('1' ≤ c && c ≤ '9') && rest.all isDigitCh then
      let v : Int := -((natOfDigits (c :: rest) : Int))
      if int64Min ≤ v then some v else none
    else none
  | c :: rest =>
    if ('1' ≤ c && c ≤ '9') && rest.all isDigitCh then
      let v : Int := (natOfDigits (c :: rest) : Int)
      if v ≤ int64Max then some v else none
    else none
  | [] => none

/-- The backing store: the string stored under the key "counter" (none when
the key has never been set) and whether the store is reachable from this
worker. -/
structure StoreState where
  counter : Option String
  reachable : Bool
deriving DecidableEq, Repr

/-- The integer value the Redis INCR command sees for the counter key:
0 when the key is absent, otherwise the strict parse of the stored string. -/
def counterVal (st : StoreState) : Option Int :=
  match st.counter with
  | none => some 0
  | some s => redisParseInt s

/-- The Python exceptions relevant to the handlers.  `connectionError` is
redis.exceptions.ConnectionError, caught by the dedicated except-branch of
each data handler; everything else falls to the generic except-branch. -/
inductive PyErr where
  | connectionError (m : String)
  | responseError (m : String)
  | attributeError (m : String)
deriving DecidableEq, Repr

/-- The str(e) text of an exception. -/
def PyErr.msg : PyErr → String
  | .connectionError m => m
  | .responseError m => m
  | .attributeError m => m

/-- Message carried by a connection failure raised inside the redis client. -/
def connectionErrorMsg : String := "Error connecting to Redis"

/-- Store client operations, recorded in each handler result so that frame
and no-call properties can be stated. -/
inductive StoreOp where
  | get
  | incr
  | ping
deriving DecidableEq, Repr

/-- Model of `redis_client.get("counter")`: the stored string, or none when
the key is absent; a ConnectionError when the store is unreachable. -/
def redisGet (st : StoreState) : Except PyErr (Option String) :=
  if st.reachable then .ok st.counter
  else .error (.connectionError connectionErrorMsg)

/-- Model of `redis_client.incr("counter")`: the single atomic Redis INCR
command.  An absent key counts as 0; a stored string that is not a strict
64-bit integer, or an increment past the 64-bit maximum, raises a Redis
ResponseError (not a ConnectionError); otherwise the stored value becomes
the decimal representation of the incremented integer, which is returned. -/
def redisIncr (st : StoreState) : Except PyErr (Int × StoreState) :=
  if st.reachable then
    match counterVal st with
    | none => .error (.responseError "value is not an integer or out of range")
    | some v =>
      if v + 1 ≤ int64Max then
        .ok (v + 1, { st with counter := some (toString (v + 1)) })
      else .error (.responseError "increment or decrement would overflow")
  else .error (.connectionError connectionErrorMsg)

/-- Model of `redis_client.ping()`. -/
def redisPing (st : StoreState) : Except PyErr Unit :=
  if st.reachable then .ok ()
  else .error (.connectionError connectionErrorMsg)

/-- JSON response bodies produced by the handlers. -/
inductive Body where
  | counterBody (counter : Int) (message : String)
  | errorBody (error : String) (message : String)
  | healthBody (status : String) (redis : String) (err : Option String)
  | textBody (text : String)
deriving DecidableEq, Repr

/-- An HTTP response: status code and body. -/
structure Response where
  status : Nat
  body : Body
deriving DecidableEq, Repr

/-- The 503 body shared by both data handlers when Redis is unavailable. -/
def unavailableResponse : Response :=
  ⟨503, .errorBody "Service temporarily unavailable" "Cannot connect to Redis"⟩

/-- The message of the ValueError raised by `int(value)` on a string that is
not a valid integer literal (Python quotes the literal; the quotes are
elided here). -/
def invalidLiteralMsg (s : String) : String :=
  "invalid literal for int() with base 10: " ++ s

/-- Model of the `get_counter` handler (GET /), src/counter_service/app.py
lines 106-193.  A missing client raises ConnectionError before any store
call; `value = redis_client.get("counter") or "0"` maps both an absent key
and an empty string to "0"; `int(value)` failing raises ValueError, which
the generic except-branch turns into a 500 whose message is str(e). -/
def get_counter (clientInit : Bool) (st : StoreState) :
    Response × StoreState × List StoreOp :=
  if clientInit = false then
    (unavailableResponse, st, [])
  else
    match redisGet st with
    | .error (.connectionError _) => (unavailableResponse, st, [.get])
    | .error e =>
      (⟨500, .errorBody "Internal server error" e.msg⟩, st, [.get])
    | .ok v =>
      let value := match v with
        | none => "0"
        | some s => if s = "" then "0" else s
      match pyIntParse value with
      | some n =>
        (⟨200, .counterBody n "Counter retrieved successfully"⟩, st, [.get])
      | none =>
        (⟨500, .errorBody "Internal server error" (invalidLiteralMsg value)⟩,
         st, [.get])

/-- Model of the `increment_counter` handler (POST /), app.py lines 195-281.
A missing client raises ConnectionError before any store call; otherwise
the handler issues the single atomic `redis_client.incr("counter")` call
and returns its result in the body. -/
def increment_counter (clientInit : Bool) (st : StoreState) :
    Response × StoreState × List StoreOp :=
  if clientInit = false then
    (unavailableResponse, st, [])
  else
    match redisIncr st with
    | .error (.connectionError _) => (unavailableResponse, st, [.incr])
    | .error e =>
      (⟨500, .errorBody "Internal server error" e.msg⟩, st, [.incr])
    | .ok (n, st2) =>
      (⟨200, .counterBody n "Counter incremented successfully"⟩, st2, [.incr])

/-- Model of the `health_check` handler (GET /health), app.py lines 283-320:
503 unhealthy when the client is missing; otherwise ping the store, 200
healthy on success, 503 unhealthy with the error text on failure. -/
def health_check (clientInit : Bool) (st : StoreState) :
    Response × StoreState × List StoreOp :=
  if clientInit = false then
    (⟨503, .healthBody "unhealthy" "disconnected" none⟩, st, [])
  else
    match redisPing st with
    | .ok _ => (⟨200, .healthBody "healthy" "connected" none⟩, st, [.ping])
    | .error e =>
      (⟨503, .healthBody "unhealthy" "disconnected" (some e.msg)⟩, st, [.ping])

/-- Model of the `metrics_endpoint` handler (GET /metrics), app.py lines
322-335.  `gen1` and `gen2` are the outcomes of the two textually distinct
calls to `generate_latest()`: the one in the try-branch and the one in the
except-branch (the "fallback" calls the very same function).  When both
raise, the second exception propagates out of the handler, so the result is
an `Except`: `.error` means the request fails with an unhandled exception. -/
def metrics_endpoint (gen1 gen2 : Except String String) :
    Except String (Response × List StoreOp) :=
  match gen1 with
  | .ok t => .ok (⟨200, .textBody t⟩, [])
  | .error _ =>
    match gen2 with
    | .ok t => .ok (⟨200, .textBody t⟩, [])
    | .error e => .error e

/-- The application context produced by a successful `create_app`. -/
structure App where
  clientInit : Bool
deriving DecidableEq, Repr

/-- Model of `create_app` (app.py lines 74-101 for the startup part).
`pingOk` says whether the startup `redis_client.ping()` succeeds.  On
failure the except-branch sets `redis_client = None`; the Limiter
construction that follows unconditionally evaluates
`redis_client.connection_pool.connection_kwargs`, and attribute access on
None raises AttributeError, which nothing catches, so `create_app` itself
raises instead of returning an application. -/
def create_app (pingOk : Bool) : Except PyErr App :=
  let redisClient : Option Unit := if pingOk then some () else none
  match redisClient with
  | none =>
    .error (.attributeError "NoneType object has no attribute connection_pool")
  | some _ => .ok ⟨true⟩

/-- The four routes the application registers. -/
inductive Route where
  | rootGet
  | rootPost
  | health
  | metrics
deriving DecidableEq, Repr

/-- `/health` and `/metrics` carry the `@limiter.exempt` decorator; the
default limits apply to the two data routes. -/
def isExempt : Route → Bool
  | .health => true
  | .metrics => true
  | .rootGet => false
  | .rootPost => false

/-- Modelled from the spec: the rate-limiting algorithm itself lives in the
external flask_limiter library, not in this repository; only its
configuration (`default_limits=["100 per minute", "10 per second"]`, keyed
by the client address) and the exemptions are in src.  Fixed windows over
whole seconds: a request at time `t` (in seconds) from a client whose
earlier requests to rate-limited endpoints happened at the times in
`prior` is denied when 10 of them fall in the same 1-second window or 100
of them fall in the same 60-second window. -/
def rateLimitDenied (prior : List Nat) (t : Nat) : Bool :=
  decide (10 ≤ (prior.filter (fun u => u == t)).length)
  || decide (100 ≤ (prior.filter (fun u => u / 60 == t / 60)).length)

/-- The 429 response produced on a denied request. -/
def rateLimitedResponse : Response :=
  ⟨429, .errorBody "Too Many Requests" "rate limit exceeded"⟩

/-- One request through the application: the rate limiter runs first (except
for exempt routes) and a denied request is answered 429 without reaching
the handler; otherwise the route handler runs. -/
def handle_request (clientInit : Bool) (st : StoreState) (r : Route)
    (prior : List Nat) (t : Nat) (gen1 gen2 : Except String String) :
    Except String (Response × StoreState × List StoreOp) :=
  if !isExempt r && rateLimitDenied prior t then
    .ok (rateLimitedResponse, st, [])
  else
    match r with
    | .rootGet => .ok (get_counter clientInit st)
    | .rootPost => .ok (increment_counter clientInit st)
    | .health => .ok (health_check clientInit st)
    | .metrics => (metrics_endpoint gen1 gen2).map (fun p => (p.1, st, p.2))

end CounterService

namespace CounterService

/-- Resolution of claim C1.  The claim says a failed startup store connect is
non-fatal: `create_app` still returns a working application that serves 503
on the data endpoints.  The code instead crashes: the except-branch sets
`redis_client = None`, and the Limiter construction right below it
dereferences `redis_client.connection_pool`, raising AttributeError out of
`create_app`, even though every handler carefully guards the None client.
This theorem evaluates the model at the failing input. -/
theorem C1_create_app_raises_on_connect_failure :
    create_app false
      = .error (.attributeError
          "NoneType object has no attribute connection_pool") := rfl

/-- Claim C2: while the Store Client is not initialized (the process-local
disconnected connectivity state that a failed startup connect leaves
behind, `redis_client is None`), every GET / and POST / answers 503 with
exactly the standard unavailability body and performs no store operation,
while /health still answers (with 503) and /metrics still answers 200. -/
theorem C2_unavailable_short_circuits (st : StoreState) (txt : String)
    (gen2 : Except String String) :
    get_counter false st = (unavailableResponse, st, [])
    ∧ increment_counter false st = (unavailableResponse, st, [])
    ∧ health_check false st
        = (⟨503, .healthBody "unhealthy" "disconnected" none⟩, st, [])
    ∧ metrics_endpoint (.ok txt) gen2 = .ok (⟨200, .textBody txt⟩, []) :=
  ⟨rfl, rfl, rfl, rfl⟩

/-- Claim C3: a successful POST / issues exactly one store operation, the
atomic increment (never a get followed by a set), the stored value becomes
the old value plus one, and the body carries the post-increment value with
status 200. -/
theorem C3_increment_is_one_atomic_incr (st : StoreState) (v : Int)
    (hr : st.reachable = true) (hv : counterVal st = some v)
    (hmax : v + 1 ≤ int64Max) :
    increment_counter true st
      = (⟨200, .counterBody (v + 1) "Counter incremented successfully"⟩,
         { st with counter := some (toString (v + 1)) }, [.incr]) := by
  simp [increment_counter, redisIncr, hr, hv, hmax]

/-- Witness for C3 at the concrete store state holding "41". -/
theorem C3_increment_is_one_atomic_incr_witness :
    (StoreState.mk (some "41") true).reachable = true
    ∧ counterVal (StoreState.mk (some "41") true) = some 41
    ∧ (41 : Int) + 1 ≤ int64Max
    ∧ increment_counter true (StoreState.mk (some "41") true)
        = (⟨200, .counterBody 42 "Counter incremented successfully"⟩,
           StoreState.mk (some "42") true, [.incr]) := by
  refine ⟨rfl, by decide, by decide, ?_⟩
  exact C3_increment_is_one_atomic_incr (StoreState.mk (some "41") true) 41
    rfl (by decide) (by decide)

/-- Claim C4: when the counter key has never been set, GET / does not raise:
it answers 200 with counter 0 and the retrieval message, because
`redis_client.get("counter") or "0"` maps the absent key to "0" before the
`int` conversion; this is distinct from the 503 connectivity path. -/
theorem C4_absent_key_reads_zero (st : StoreState)
    (hr : st.reachable = true) (hc : st.counter = none) :
    get_counter true st
      = (⟨200, .counterBody 0 "Counter retrieved successfully"⟩,
         st, [.get]) := by
  have h1 : redisGet st = .ok none := by simp [redisGet, hr, hc]
  simp only [get_counter, h1]
  rfl

/-- Witness for C4 at the store state with no counter key. -/
theorem C4_absent_key_reads_zero_witness :
    (StoreState.mk none true).reachable = true
    ∧ (StoreState.mk none true).counter = none
    ∧ get_counter true (StoreState.mk none true)
        = (⟨200, .counterBody 0 "Counter retrieved successfully"⟩,
           StoreState.mk none true, [.get]) := by
  refine ⟨rfl, rfl, ?_⟩
  exact C4_absent_key_reads_zero (StoreState.mk none true) rfl rfl

/-- Claim C5: a client with 10 prior requests in the same 1-second window,
or 100 prior requests in the same minute, is answered 429 on the
rate-limited routes without any store operation being performed, while
/health and /metrics bypass the limiter entirely, whatever the client's
request volume. -/
theorem C5_rate_limit_thresholds (clientInit : Bool) (st : StoreState)
    (prior prior2 : List Nat) (t t2 : Nat) (g1 g2 : Except String String)
    (h1 : 10 ≤ (prior.filter (fun u => u == t)).length)
    (h2 : 100 ≤ (prior2.filter (fun u => u / 60 == t2 / 60)).length) :
    handle_request clientInit st .rootGet prior t g1 g2
        = .ok (rateLimitedResponse, st, [])
    ∧ handle_request clientInit st .rootPost prior t g1 g2
        = .ok (rateLimitedResponse, st, [])
    ∧ handle_request clientInit st .rootGet prior2 t2 g1 g2
        = .ok (rateLimitedResponse, st, [])
    ∧ handle_request clientInit st .rootPost prior2 t2 g1 g2
        = .ok (rateLimitedResponse, st, [])
    ∧ (∀ pr u, handle_request clientInit st .health pr u g1 g2
        = .ok (health_check clientInit st))
    ∧ (∀ pr u, handle_request clientInit st .metrics pr u g1 g2
        = (metrics_endpoint g1 g2).map (fun p => (p.1, st, p.2))) := by
  have hd1 : rateLimitDenied prior t = true := by
    simp only [rateLimitDenied, Bool.or_eq_true, decide_eq_true_eq]
    exact Or.inl h1
  have hd2 : rateLimitDenied prior2 t2 = true := by
    simp only [rateLimitDenied, Bool.or_eq_true, decide_eq_true_eq]
    exact Or.inr h2
  refine ⟨?_, ?_, ?_, ?_, fun pr u => rfl, fun pr u => rfl⟩ <;>
    simp [handle_request, isExempt, hd1, hd2]

/-- Witness for C5: 10 prior hits in second 5, 100 prior hits in the first
minute, both thresholds concretely reached. -/
theorem C5_rate_limit_thresholds_witness :
    10 ≤ ((List.replicate 10 5).filter (fun u => u == 5)).length
    ∧ 100 ≤ ((List.replicate 100 30).filter
        (fun u => u / 60 == 59 / 60)).length
    ∧ handle_request true (StoreState.mk none true) .rootGet
        (List.replicate 10 5) 5 (.ok "m") (.ok "m")
        = .ok (rateLimitedResponse, StoreState.mk none true, []) := by
  refine ⟨by decide, by decide, ?_⟩
  exact (C5_rate_limit_thresholds true (StoreState.mk none true)
    (List.replicate 10 5) (List.replicate 100 30) 5 59 (.ok "m") (.ok "m")
    (by decide) (by decide)).1

/-- Claim C6: with an initialized client, /health answers 200
healthy/connected exactly when the ping succeeds and otherwise 503
unhealthy/disconnected extended with the error text; with no client
(startup connect failure) it answers 503 unhealthy/disconnected. -/
theorem C6_health_reflects_ping (st : StoreState) :
    health_check true st
      = (if st.reachable
          then (⟨200, .healthBody "healthy" "connected" none⟩, st, [.ping])
          else (⟨503, .healthBody "unhealthy" "disconnected"
                  (some connectionErrorMsg)⟩, st, [.ping]))
    ∧ health_check false st
      = (⟨503, .healthBody "unhealthy" "disconnected" none⟩, st, []) := by
  obtain ⟨c, r⟩ := st
  cases r <;> exact ⟨rfl, rfl⟩

/-- Resolution of claim C7.  The claim says GET /metrics never fails the
request: on an internal export error it falls back to a best-effort
exposition and still answers 200.  But the except-branch of the handler
calls the very same `generate_latest()` again, so when the export failure
is persistent the second call raises too and the exception propagates out
of the handler: the request fails instead of receiving a 200.  This
theorem evaluates the model at that failing input. -/
theorem C7_metrics_failure_propagates :
    metrics_endpoint (.error "collect failed") (.error "collect failed")
      = .error "collect failed" := rfl

/-- The GET / handler returns the store state unchanged in every branch. -/
theorem get_counter_state_eq (b : Bool) (st : StoreState) :
    (get_counter b st).2.1 = st := by
  unfold get_counter
  repeat' split
  all_goals try rfl
  all_goals dsimp only
  all_goals split <;> rfl

/-- Claim C8: GET / never mutates the counter: the store state after the
request equals the state before it, and hence a repeated GET / with no
intervening increment returns the very same response. -/
theorem C8_get_is_readonly (clientInit : Bool) (st : StoreState) :
    (get_counter clientInit st).2.1 = st
    ∧ get_counter clientInit ((get_counter clientInit st).2.1)
        = get_counter clientInit st := by
  refine ⟨get_counter_state_eq clientInit st, ?_⟩
  rw [get_counter_state_eq]

/-- Claim C9: with the store reachable, GET / maps an absent key and an
empty stored string to counter 0 with status 200, while a non-empty stored
string that the Python `int` conversion rejects produces status 500 with
the parse-error text in the message field, not the 503 unavailability
body. -/
theorem C9_stored_value_parsing (st : StoreState) (s : String)
    (hr : st.reachable = true) :
    ((st.counter = none ∨ st.counter = some "") →
      get_counter true st
        = (⟨200, .counterBody 0 "Counter retrieved successfully"⟩,
           st, [.get]))
    ∧ (st.counter = some s → s ≠ "" → pyIntParse s = none →
      get_counter true st
        = (⟨500, .errorBody "Internal server error" (invalidLiteralMsg s)⟩,
           st, [.get])) := by
  constructor
  · intro hc
    rcases hc with hc | hc
    · have h1 : redisGet st = .ok none := by simp [redisGet, hr, hc]
      simp only [get_counter, h1]
      rfl
    · have h1 : redisGet st = .ok (some "") := by simp [redisGet, hr, hc]
      simp only [get_counter, h1]
      rfl
  · intro hc hne hp
    have h1 : redisGet st = .ok (some s) := by simp [redisGet, hr, hc]
    simp [get_counter, h1, hne, hp]

/-- Witness for C9 at the store state holding the non-numeric string
"abc". -/
theorem C9_stored_value_parsing_witness :
    (StoreState.mk (some "abc") true).reachable = true
    ∧ (StoreState.mk (some "abc") true).counter = some "abc"
    ∧ ("abc" : String) ≠ ""
    ∧ pyIntParse "abc" = none
    ∧ get_counter true (StoreState.mk (some "abc") true)
        = (⟨500, .errorBody "Internal server error" (invalidLiteralMsg "abc")⟩,
           StoreState.mk (some "abc") true, [.get]) := by
  refine ⟨rfl, rfl, by decide, by decide, ?_⟩
  exact (C9_stored_value_parsing (StoreState.mk (some "abc") true) "abc"
    rfl).2 rfl (by decide) (by decide)

/-- Claim C10: /health and /metrics never mutate the counter key: the store
state after a request to either endpoint equals the state before it, in
every store state and whatever the limiter history (the handlers only ping
the store or export metrics). -/
theorem C10_health_metrics_frame (clientInit : Bool) (st : StoreState)
    (pr : List Nat) (t : Nat) (g1 g2 : Except String String) :
    (health_check clientInit st).2.1 = st
    ∧ handle_request clientInit st .health pr t g1 g2
        = .ok (health_check clientInit st)
    ∧ handle_request clientInit st .metrics pr t g1 g2
        = (metrics_endpoint g1 g2).map (fun p => (p.1, st, p.2)) := by
  refine ⟨?_, rfl, rfl⟩
  obtain ⟨c, r⟩ := st
  cases clientInit <;> cases r <;> rfl

end CounterService
